import Mathlib

/-!
# Starlark configuration converter: `plugin/converter/parser/starlark.go`

A shallow embedding of `ParseStarlark` and `noLoad`.

The Starlark interpreter (`go.starlark.net/starlark`) is an outside library, and the
helpers `createArgs` and `write` live in sibling files of the package; all four are
taken as parameters (structure `Deps`): every theorem below holds for whatever they
compute.  The request and the `Repo` and `Config` it points to are taken to be non-nil
(the Go code dereferences them without a check).  Go byte strings are lists of bytes, a nilable pointer is an `Option`, and the
Go result pair `(file *string, err error)` is kept as a pair of options so that the
`(nil, nil)` outcome stays expressible.  The calls `ParseStarlark` makes into the
interpreter are recorded, in order, in a trace.
-/

set_option autoImplicit false

namespace Parser

/-! ## Bytes and constants -/

/-- Go `[]byte` and Go `string` contents. -/
abbrev Bytes := List UInt8

/-- The bytes of a string literal (Go source strings are UTF-8). -/
def bytesOf (s : String) : Bytes := s.toUTF8.data.toList

/-- Source line 12: `separator = "---"`. -/
def separator : String := "---"

/-- Source line 13: `newline = "\n"`. -/
def newline : String := "\n"

/-- Source line 17: `const limit = 1000000`. -/
def limit : Nat := 1000000

/-- Go `(*bytes.Buffer).WriteString`: append the bytes of `s`. -/
def WriteString (buf : Bytes) (s : String) : Bytes := buf ++ bytesOf s

/-! ## Errors -/

/-- Go `error` values seen by this file: the five package-level values of lines 19-39,
and `other`, any error value made elsewhere (interpreter, renderer). -/
inductive Error where
  | ErrMainMissing
  | ErrMainInvalid
  | ErrMainReturn
  | ErrMaximumSize
  | ErrCannotLoad
  | other (msg : String)
  deriving DecidableEq, Repr

/-! ## Starlark values -/

/-- The dynamic types behind the interface `starlark.Value`. -/
inductive Value where
  | noneType
  | bool (b : Bool)
  | int (i : Int)
  | float (bits : Nat)
  | string (s : String)
  | bytes (b : List UInt8)
  | list (elems : List Value)
  | tuple (elems : List Value)
  | dict (items : List (Value × Value))
  | set (elems : List Value)
  | function (name : String)
  | builtin (name : String)
  | other (typeName : String)

/-- Go type assertion `v.(starlark.Callable)`: `*Function` and `*Builtin` implement it. -/
def Value.isCallable : Value → Bool
  | .function _ => true
  | .builtin _ => true
  | _ => false

/-- Go `starlark.StringDict`, a map from names to values. -/
abbrev StringDict := List (String × Value)

/-- Go map index `globals[key]` with the comma-ok form. -/
def StringDict.get (globals : StringDict) (key : String) : Option Value :=
  List.lookup key globals

/-! ## Interpreter thread -/

/-- The fields of `starlark.Thread` that are not hooks: the name and the step counters
(both counters are zero in a thread built by a struct literal). -/
structure ThreadState where
  Name : String
  steps : Nat := 0
  maxSteps : Nat := 0

/-- One line handed to the logger by the trace hook (lines 45-50). -/
structure LogEntry where
  fields : List (String × String)
  level : String
  msg : String

/-- Go `starlark.Thread`.  A hook receives the thread it is installed on; it sees the
thread through its non-hook fields. -/
structure Thread extends ThreadState where
  Load : ThreadState → String → Option StringDict × Option Error
  Print : ThreadState → String → LogEntry

/-- Library method `(*Thread).SetMaxExecutionSteps`. -/
def Thread.SetMaxExecutionSteps (thread : Thread) (max : Nat) : Thread :=
  { thread with maxSteps := max }

/-- Source lines 122-124. -/
def noLoad (_ : ThreadState) (_ : String) : Option StringDict × Option Error :=
  (none, some Error.ErrCannotLoad)

/-! ## Request data -/

/-- The fields of `core.Repository` read by this file. -/
structure Repository where
  Namespace : String
  Name : String
  Config : String

/-- The field of `core.Config` read by this file. -/
structure Config where
  Data : Bytes

/-- Go `core.ConvertArgs`; the build descriptor is only passed through. -/
structure ConvertArgs (B : Type) where
  Repo : Repository
  Build : B
  Config : Config

/-- The fields of `core.Template` read by this file. -/
structure Template where
  Name : String
  Data : Bytes

/-! ## Collaborators taken as parameters -/

/-- Functions called by `ParseStarlark` that are defined outside the file.
`ExecFile` and `Call` may update the thread they run on; their last argument, always
`nil` in this file (no predeclared names, no keyword arguments), is left out.  `write`
reports the bytes it appended to the buffer and its error. -/
structure Deps (B T : Type) where
  ExecFile : Thread → String → Bytes → Thread × Except Error StringDict
  Call : Thread → Value → List Value → Thread × Except Error Value
  createArgs : Repository → B → T → List Value
  write : Value → Bytes × Option Error

/-- A call made by `ParseStarlark` into the interpreter or the argument builder. -/
inductive Event where
  | execFile (thread : Thread) (filename : String) (src : Bytes)
  | createArgs
  | call (thread : Thread) (fn : Value) (args : List Value)

/-- Whether the event is a top-level evaluation. -/
def Event.isExecFile : Event → Bool
  | .execFile _ _ _ => true
  | _ => false

/-- Whether the event is a function call. -/
def Event.isCall : Event → Bool
  | .call _ _ _ => true
  | _ => false

/-- Whether the event is the building of the arguments. -/
def Event.isCreateArgs : Event → Bool
  | .createArgs => true
  | _ => false

/-- The file name and the bytes handed to the interpreter for top-level evaluation. -/
def Event.script : Event → Option (String × Bytes)
  | .execFile _ filename src => some (filename, src)
  | _ => none

/-- The step limit of the thread an event ran on. -/
def Event.maxSteps : Event → Option Nat
  | .execFile thread _ _ => some thread.maxSteps
  | .call thread _ _ => some thread.maxSteps
  | .createArgs => none

/-! ## ParseStarlark -/

/-- Source lines 42-51: the thread literal. -/
def newThread {B : Type} (req : ConvertArgs B) : Thread :=
  { Name := "drone"
    Load := noLoad
    Print := fun _ msg =>
      { fields := [("namespace", req.Repo.Namespace), ("name", req.Repo.Name)]
        level := "trace"
        msg := msg } }

/-- Source lines 52-60: the script bytes. -/
def starlarkFile {B : Type} (req : ConvertArgs B) (template : Option Template) : Bytes :=
  match template with
  | some t => t.Data
  | none => req.Config.Data

/-- Source lines 52-60: the script file name. -/
def starlarkFileName {B : Type} (req : ConvertArgs B) (template : Option Template) : String :=
  match template with
  | some t => t.Name
  | none => req.Repo.Config

/-- Source lines 96-104: the loop over the list, from a given buffer.  Returns the buffer
as it stands when the loop ends or breaks off, with the error that broke it off. -/
def writeItems (write : Value → Bytes × Option Error) : List Value → Bytes → Bytes × Option Error
  | [], buf => (buf, none)
  | item :: rest, buf =>
    let buf := WriteString buf separator
    let buf := WriteString buf newline
    match write item with
    | (out, some err) => (buf ++ out, some err)
    | (out, none) => writeItems write rest (WriteString (buf ++ out) newline)

/-- Source lines 93-111: the type switch on the value returned by main, on a fresh
buffer. -/
def render (write : Value → Bytes × Option Error) (mainVal : Value) : Except Error Bytes :=
  match mainVal with
  | .list elems =>
    match writeItems write elems [] with
    | (_, some err) => .error err
    | (buf, none) => .ok buf
  | .dict items =>
    match write (.dict items) with
    | (_, some err) => .error err
    | (out, none) => .ok out
  | _ => .error Error.ErrMainReturn

/-- Result of `ParseStarlark`: the Go pair `(file, err)` and the trace of calls. -/
structure Outcome where
  file : Option Bytes
  err : Option Error
  trace : List Event

/-- Source lines 41-120. -/
def ParseStarlark {B T : Type} (d : Deps B T) (req : ConvertArgs B)
    (template : Option Template) (templateData : T) : Outcome :=
  let thread := newThread req
  let file := starlarkFile req template
  let name := starlarkFileName req template
  let tr := [Event.execFile thread name file]
  match d.ExecFile thread name file with
  | (_, .error err) => ⟨none, some err, tr⟩
  | (thread, .ok globals) =>
    match globals.get "main" with
    | none => ⟨none, some Error.ErrMainMissing, tr⟩
    | some mainVal =>
      if mainVal.isCallable = false then ⟨none, some Error.ErrMainInvalid, tr⟩
      else
        let args := d.createArgs req.Repo req.Build templateData
        let tr := tr ++ [Event.createArgs]
        let thread := thread.SetMaxExecutionSteps 50000
        let tr := tr ++ [Event.call thread mainVal args]
        match d.Call thread mainVal args with
        | (_, .error err) => ⟨none, some err, tr⟩
        | (_, .ok mainVal) =>
          match render d.write mainVal with
          | .error err => ⟨none, some err, tr⟩
          | .ok buf =>
            if buf.length > limit then ⟨none, none, tr⟩
            else ⟨some buf, none, tr⟩

/-! ## Vocabulary of the statements -/

/-- Top-level evaluation succeeds leaving the thread as `th1` and the globals `globals`,
`main` is bound to the callable `fn`, and calling it on the thread with its step limit
set succeeds, leaving the thread as `th2`, and returns `v`. -/
def Invoked {B T : Type} (d : Deps B T) (req : ConvertArgs B)
    (template : Option Template) (templateData : T)
    (th1 th2 : Thread) (globals : StringDict) (fn v : Value) : Prop :=
  d.ExecFile (newThread req) (starlarkFileName req template) (starlarkFile req template)
    = (th1, .ok globals) ∧
  globals.get "main" = some fn ∧
  fn.isCallable = true ∧
  d.Call (th1.SetMaxExecutionSteps 50000) fn (d.createArgs req.Repo req.Build templateData)
    = (th2, .ok v)

/-- Top-level evaluation succeeds, `main` is bound to a callable, and the call to it
succeeds and returns `v`. -/
def MainReturns {B T : Type} (d : Deps B T) (req : ConvertArgs B)
    (template : Option Template) (templateData : T) (v : Value) : Prop :=
  ∃ (th1 th2 : Thread) (globals : StringDict) (fn : Value),
    Invoked d req template templateData th1 th2 globals fn v

/-- One framed document: separator, newline, the rendering of the element, newline. -/
def document (write : Value → Bytes × Option Error) (item : Value) : Bytes :=
  bytesOf separator ++ bytesOf newline ++ (write item).1 ++ bytesOf newline

/-- The framed documents of the elements, concatenated in index order. -/
def documents (write : Value → Bytes × Option Error) (elems : List Value) : Bytes :=
  (elems.map (document write)).flatten

/-- The value is a `*starlark.List`. -/
def Value.isList : Value → Bool
  | .list _ => true
  | _ => false

/-- The value is a `*starlark.Dict`, the keyed mapping of Starlark. -/
def Value.isDict : Value → Bool
  | .dict _ => true
  | _ => false

/-- The value is an ordered sequence of values: Starlark has two such types, the
mutable list and the immutable tuple. -/
def Value.isOrderedSequence : Value → Bool
  | .list _ => true
  | .tuple _ => true
  | _ => false

/-- The trace of a run that got as far as calling main. -/
def calledTrace {B : Type} (req : ConvertArgs B) (template : Option Template)
    (th1 : Thread) (fn : Value) (args : List Value) : List Event :=
  [Event.execFile (newThread req) (starlarkFileName req template) (starlarkFile req template),
   Event.createArgs,
   Event.call (th1.SetMaxExecutionSteps 50000) fn args]

/-- The ways through `ParseStarlark`, by the return statement reached: line 64, line 72,
line 76, line 90, the three error returns of the type switch (lines 101, 107, 110, all
three being the error of `render`), line 116 and line 119. -/
inductive Run {B T : Type} (d : Deps B T) (req : ConvertArgs B)
    (template : Option Template) (td : T) : Outcome → Prop where
  | execError (th1 : Thread) (e : Error)
      (hexec : d.ExecFile (newThread req) (starlarkFileName req template)
        (starlarkFile req template) = (th1, .error e)) :
      Run d req template td ⟨none, some e,
        [Event.execFile (newThread req) (starlarkFileName req template)
          (starlarkFile req template)]⟩
  | mainMissing (th1 : Thread) (globals : StringDict)
      (hexec : d.ExecFile (newThread req) (starlarkFileName req template)
        (starlarkFile req template) = (th1, .ok globals))
      (hget : globals.get "main" = none) :
      Run d req template td ⟨none, some Error.ErrMainMissing,
        [Event.execFile (newThread req) (starlarkFileName req template)
          (starlarkFile req template)]⟩
  | mainInvalid (th1 : Thread) (globals : StringDict) (fn : Value)
      (hexec : d.ExecFile (newThread req) (starlarkFileName req template)
        (starlarkFile req template) = (th1, .ok globals))
      (hget : globals.get "main" = some fn) (hfn : fn.isCallable = false) :
      Run d req template td ⟨none, some Error.ErrMainInvalid,
        [Event.execFile (newThread req) (starlarkFileName req template)
          (starlarkFile req template)]⟩
  | callError (th1 th2 : Thread) (globals : StringDict) (fn : Value) (e : Error)
      (hexec : d.ExecFile (newThread req) (starlarkFileName req template)
        (starlarkFile req template) = (th1, .ok globals))
      (hget : globals.get "main" = some fn) (hfn : fn.isCallable = true)
      (hcall : d.Call (th1.SetMaxExecutionSteps 50000) fn
        (d.createArgs req.Repo req.Build td) = (th2, .error e)) :
      Run d req template td ⟨none, some e,
        calledTrace req template th1 fn (d.createArgs req.Repo req.Build td)⟩
  | renderError (th1 th2 : Thread) (globals : StringDict) (fn v : Value) (e : Error)
      (hmain : Invoked d req template td th1 th2 globals fn v)
      (hrender : render d.write v = .error e) :
      Run d req template td ⟨none, some e,
        calledTrace req template th1 fn (d.createArgs req.Repo req.Build td)⟩
  | tooLarge (th1 th2 : Thread) (globals : StringDict) (fn v : Value) (buf : Bytes)
      (hmain : Invoked d req template td th1 th2 globals fn v)
      (hrender : render d.write v = .ok buf) (hsize : limit < buf.length) :
      Run d req template td ⟨none, none,
        calledTrace req template th1 fn (d.createArgs req.Repo req.Build td)⟩
  | artifact (th1 th2 : Thread) (globals : StringDict) (fn v : Value) (buf : Bytes)
      (hmain : Invoked d req template td th1 th2 globals fn v)
      (hrender : render d.write v = .ok buf) (hsize : buf.length ≤ limit) :
      Run d req template td ⟨some buf, none,
        calledTrace req template th1 fn (d.createArgs req.Repo req.Build td)⟩

/-! ## Fixtures for concrete runs -/

/-- A request for the repository `octocat/hello-world` with an inline script. -/
def demoReq : ConvertArgs Unit :=
  { Repo := { Namespace := "octocat", Name := "hello-world", Config := ".drone.star" }
    Build := ()
    Config := { Data := bytesOf "inline" } }

/-- A template named `tmpl.star`. -/
def demoTemplate : Template :=
  { Name := "tmpl.star", Data := bytesOf "template" }

/-- A toy renderer: a string renders as its bytes, a dict as `{}`, anything else fails. -/
def demoWrite : Value → Bytes × Option Error
  | .string s => (bytesOf s, none)
  | .dict _ => (bytesOf "{}", none)
  | _ => (bytesOf "!", some (Error.other "cannot render"))

/-- A toy interpreter: top-level evaluation counts one step and yields `top`, every call
yields `ret`. -/
def demoDeps (top : Except Error StringDict) (ret : Except Error Value)
    (write : Value → Bytes × Option Error) : Deps Unit Unit :=
  { ExecFile := fun th _ _ => ({ th with steps := th.steps + 1 }, top)
    Call := fun th _ _ => (th, ret)
    createArgs := fun _ _ _ => [Value.dict []]
    write := write }

/-- A renderer whose output for every value is `n` zero bytes. -/
def fillWrite (n : Nat) : Value → Bytes × Option Error :=
  fun _ => (List.replicate n 0, none)

/-- Globals of a script that binds names close to `main`, but not `main` itself. -/
def nearMissGlobals : StringDict :=
  [("Main", Value.function "Main"), ("MAIN", Value.function "MAIN"),
   ("main_", Value.function "main_"), ("start", Value.function "start")]

/-- Globals of a script that defines the function `main`. -/
def demoGlobals : StringDict := [("x", Value.int 1), ("main", Value.function "main")]

/-! ## Sanity checks on the constants -/

theorem bytesOf_separator : bytesOf separator = [45, 45, 45] := by decide

theorem bytesOf_newline : bytesOf newline = [10] := by decide

/-! ## Shared lemmas -/

theorem writeItems_ok (write : Value → Bytes × Option Error) (elems : List Value)
    (h : ∀ e ∈ elems, (write e).2 = none) (buf : Bytes) :
    writeItems write elems buf = (buf ++ documents write elems, none) := by
  induction elems generalizing buf with
  | nil => simp [writeItems, documents]
  | cons item rest ih =>
    have h1 : (write item).2 = none := h item (List.mem_cons_self _ _)
    have h2 : ∀ e ∈ rest, (write e).2 = none := fun e he => h e (List.mem_cons_of_mem _ he)
    have h3 : write item = ((write item).1, none) := by rw [← h1]
    rw [writeItems, h3]
    simp only [ih h2]
    simp [documents, document, WriteString, List.append_assoc]

theorem writeItems_error (write : Value → Bytes × Option Error) (pre post : List Value)
    (item : Value) (out : Bytes) (e : Error)
    (h : ∀ x ∈ pre, (write x).2 = none) (hitem : write item = (out, some e)) (buf : Bytes) :
    writeItems write (pre ++ item :: post) buf
      = (buf ++ documents write pre ++ bytesOf separator ++ bytesOf newline ++ out, some e) := by
  induction pre generalizing buf with
  | nil => simp [writeItems, documents, hitem, WriteString, List.append_assoc]
  | cons x rest ih =>
    have h1 : (write x).2 = none := h x (List.mem_cons_self _ _)
    have h2 : ∀ y ∈ rest, (write y).2 = none := fun y hy => h y (List.mem_cons_of_mem _ hy)
    have h3 : write x = ((write x).1, none) := by rw [← h1]
    rw [List.cons_append, writeItems, h3]
    simp only [ih h2]
    simp [documents, document, WriteString, List.append_assoc]

theorem parse_of_mainReturns {B T : Type} (d : Deps B T) (req : ConvertArgs B)
    (template : Option Template) (td : T) (v : Value)
    (h : MainReturns d req template td v) :
    ((ParseStarlark d req template td).file, (ParseStarlark d req template td).err) =
      match render d.write v with
      | .error err => (none, some err)
      | .ok buf => if buf.length > limit then (none, none) else (some buf, none) := by
  obtain ⟨th1, th2, globals, fn, h1, h2, h3, h4⟩ := h
  simp only [ParseStarlark, h1, h2, h3, h4]
  cases render d.write v with
  | error err => simp
  | ok buf => by_cases hb : buf.length > limit <;> simp [hb]

theorem writeItems_error_source (write : Value → Bytes × Option Error) (elems : List Value)
    (buf : Bytes) (e : Error) (h : (writeItems write elems buf).2 = some e) :
    ∃ x, (write x).2 = some e := by
  induction elems generalizing buf with
  | nil => simp [writeItems] at h
  | cons item rest ih =>
    rw [writeItems] at h
    rcases hw : write item with ⟨out, _ | e2⟩
    · rw [hw] at h
      exact ih _ h
    · rw [hw] at h
      refine ⟨item, ?_⟩
      rw [hw]
      simpa using h

theorem render_error_source (write : Value → Bytes × Option Error) (v : Value) (e : Error)
    (h : render write v = .error e) :
    e = Error.ErrMainReturn ∨ ∃ x, (write x).2 = some e := by
  cases v with
  | list elems =>
    right
    rcases hw : writeItems write elems [] with ⟨buf, _ | e2⟩
    · simp [render, hw] at h
    · simp only [render, hw, Except.error.injEq] at h
      subst h
      exact writeItems_error_source write elems [] e2 (by rw [hw])
  | dict items =>
    right
    rcases hw : write (.dict items) with ⟨buf, _ | e2⟩
    · simp [render, hw] at h
    · simp only [render, hw, Except.error.injEq] at h
      subst h
      exact ⟨.dict items, by rw [hw]⟩
  | _ =>
    left
    simpa [render, eq_comm] using h

theorem ParseStarlark_run {B T : Type} (d : Deps B T) (req : ConvertArgs B)
    (template : Option Template) (td : T) :
    Run d req template td (ParseStarlark d req template td) := by
  rcases hE : d.ExecFile (newThread req) (starlarkFileName req template)
    (starlarkFile req template) with ⟨th1, r⟩
  cases r with
  | error e =>
    have : Run d req template td _ := Run.execError th1 e hE
    simpa [ParseStarlark, hE] using this
  | ok globals =>
    cases hg : globals.get "main" with
    | none =>
      have : Run d req template td _ := Run.mainMissing th1 globals hE hg
      simpa [ParseStarlark, hE, hg] using this
    | some fn =>
      cases hc : fn.isCallable with
      | false =>
        have : Run d req template td _ := Run.mainInvalid th1 globals fn hE hg hc
        simpa [ParseStarlark, hE, hg, hc] using this
      | true =>
        rcases hC : d.Call (th1.SetMaxExecutionSteps 50000) fn
          (d.createArgs req.Repo req.Build td) with ⟨th2, r2⟩
        cases r2 with
        | error e =>
          have := Run.callError th1 th2 globals fn e hE hg hc hC
          simpa [ParseStarlark, hE, hg, hc, hC, calledTrace] using this
        | ok v =>
          have hmain : Invoked d req template td th1 th2 globals fn v := ⟨hE, hg, hc, hC⟩
          cases hr : render d.write v with
          | error e =>
            have := Run.renderError th1 th2 globals fn v e hmain hr
            simpa [ParseStarlark, hE, hg, hc, hC, hr, calledTrace] using this
          | ok buf =>
            by_cases hb : limit < buf.length
            · have := Run.tooLarge th1 th2 globals fn v buf hmain hr hb
              simpa [ParseStarlark, hE, hg, hc, hC, hr, hb, calledTrace] using this
            · have := Run.artifact th1 th2 globals fn v buf hmain hr (Nat.not_lt.mp hb)
              simpa [ParseStarlark, hE, hg, hc, hC, hr, hb, calledTrace] using this

theorem trace_of_callable {B T : Type} (d : Deps B T) (req : ConvertArgs B)
    (template : Option Template) (td : T) (th1 : Thread) (globals : StringDict) (fn : Value)
    (hexec : d.ExecFile (newThread req) (starlarkFileName req template)
      (starlarkFile req template) = (th1, .ok globals))
    (hget : globals.get "main" = some fn) (hc : fn.isCallable = true) :
    (ParseStarlark d req template td).trace
      = calledTrace req template th1 fn (d.createArgs req.Repo req.Build td) := by
  rcases hC : d.Call (th1.SetMaxExecutionSteps 50000) fn
    (d.createArgs req.Repo req.Build td) with ⟨th2, r2⟩
  cases r2 with
  | error e => simp [ParseStarlark, hexec, hget, hc, hC, calledTrace]
  | ok v =>
    cases hr : render d.write v with
    | error e => simp [ParseStarlark, hexec, hget, hc, hC, hr, calledTrace]
    | ok buf =>
      by_cases hb : limit < buf.length <;>
        simp [ParseStarlark, hexec, hget, hc, hC, hr, hb, calledTrace]

theorem demo_mainReturns (ret : Value) (write : Value → Bytes × Option Error)
    (template : Option Template) :
    MainReturns (demoDeps (.ok demoGlobals) (.ok ret) write) demoReq template () ret :=
  ⟨_, _, demoGlobals, Value.function "main", rfl, rfl, rfl, rfl⟩

/-! ## Serialization of the value returned by main -/

/-- C1: when top-level evaluation and the call to main succeed and main returns a list
whose elements all render without error, the artifact is the concatenation, in index
order, of separator, newline, rendering, newline per element, provided it is at most
1,000,000 bytes long; for a non-empty list the artifact begins with the separator line. -/
theorem ParseStarlark_list_artifact {B T : Type} (d : Deps B T) (req : ConvertArgs B)
    (template : Option Template) (td : T) (elems : List Value)
    (hmain : MainReturns d req template td (.list elems))
    (hwrite : ∀ e ∈ elems, (d.write e).2 = none)
    (hsize : (documents d.write elems).length ≤ limit) :
    (ParseStarlark d req template td).file = some (documents d.write elems) ∧
    (ParseStarlark d req template td).err = none ∧
    documents d.write elems
      = (elems.map fun e => bytesOf "---" ++ bytesOf "\n" ++ (d.write e).1 ++ bytesOf "\n").flatten ∧
    (elems ≠ [] → ∃ rest, documents d.write elems = bytesOf "---\n" ++ rest) := by
  have h := parse_of_mainReturns d req template td _ hmain
  have hr : render d.write (.list elems) = .ok (documents d.write elems) := by
    simp [render, writeItems_ok d.write elems hwrite]
  rw [hr] at h
  simp only [Nat.not_lt.mpr hsize, if_false, Prod.mk.injEq] at h
  refine ⟨h.1, h.2, rfl, ?_⟩
  intro hne
  cases elems with
  | nil => exact absurd rfl hne
  | cons e rest =>
    refine ⟨(d.write e).1 ++ bytesOf newline ++ documents d.write rest, ?_⟩
    have hs : bytesOf "---\n" = bytesOf separator ++ bytesOf newline := by decide
    simp [documents, document, hs, List.append_assoc]

theorem ParseStarlark_list_artifact_witness :
    MainReturns (demoDeps (.ok demoGlobals) (.ok (.list [Value.string "a", Value.string "b"]))
        demoWrite) demoReq none () (.list [Value.string "a", Value.string "b"]) ∧
    (∀ e ∈ [Value.string "a", Value.string "b"], (demoWrite e).2 = none) ∧
    (documents demoWrite [Value.string "a", Value.string "b"]).length ≤ limit ∧
    (ParseStarlark (demoDeps (.ok demoGlobals)
        (.ok (.list [Value.string "a", Value.string "b"])) demoWrite) demoReq none ()).file
      = some (bytesOf "---\na\n---\nb\n") :=
  ⟨demo_mainReturns _ _ _, by simp [demoWrite], by decide,
    (by decide : documents demoWrite [Value.string "a", Value.string "b"]
        = bytesOf "---\na\n---\nb\n") ▸
      (ParseStarlark_list_artifact (demoDeps (.ok demoGlobals)
          (.ok (.list [Value.string "a", Value.string "b"])) demoWrite) demoReq none ()
        [Value.string "a", Value.string "b"] (demo_mainReturns _ _ _)
        (by simp [demoDeps, demoWrite]) (by decide)).1⟩

/-- C2: when top-level evaluation and the call to main succeed and main returns a dict
that renders without error into at most 1,000,000 bytes, the artifact is exactly that
rendering, with nothing added before or after it. -/
theorem ParseStarlark_dict_artifact {B T : Type} (d : Deps B T) (req : ConvertArgs B)
    (template : Option Template) (td : T) (items : List (Value × Value)) (out : Bytes)
    (hmain : MainReturns d req template td (.dict items))
    (hwrite : d.write (.dict items) = (out, none))
    (hsize : out.length ≤ limit) :
    (ParseStarlark d req template td).file = some out ∧
    (ParseStarlark d req template td).err = none := by
  have h := parse_of_mainReturns d req template td _ hmain
  have hr : render d.write (.dict items) = .ok out := by simp [render, hwrite]
  rw [hr] at h
  simp only [Nat.not_lt.mpr hsize, if_false, Prod.mk.injEq] at h
  exact h

theorem ParseStarlark_dict_artifact_witness :
    MainReturns (demoDeps (.ok demoGlobals) (.ok (.dict [])) demoWrite) demoReq none ()
        (.dict []) ∧
    demoWrite (.dict []) = (bytesOf "{}", none) ∧
    (bytesOf "{}").length ≤ limit ∧
    (ParseStarlark (demoDeps (.ok demoGlobals) (.ok (.dict [])) demoWrite) demoReq none ()).file
      = some (bytesOf "{}") ∧
    (ParseStarlark (demoDeps (.ok demoGlobals) (.ok (.dict [])) demoWrite) demoReq none ()).err
      = none :=
  ⟨demo_mainReturns _ _ _, rfl, by decide,
    ParseStarlark_dict_artifact (demoDeps (.ok demoGlobals) (.ok (.dict [])) demoWrite)
      demoReq none () [] (bytesOf "{}") (demo_mainReturns _ _ _) rfl (by decide)⟩

/-- C3 as stated fails: a tuple is an ordered sequence, yet when main returns one the
type switch, having cases for list and dict only, rejects it with ErrMainReturn
instead of passing it on to serialization. -/
theorem ParseStarlark_rejects_tuple :
    MainReturns (demoDeps (.ok demoGlobals) (.ok (.tuple [Value.dict []])) demoWrite)
      demoReq none () (.tuple [Value.dict []]) ∧
    (Value.tuple [Value.dict []]).isOrderedSequence = true ∧
    (ParseStarlark (demoDeps (.ok demoGlobals) (.ok (.tuple [Value.dict []])) demoWrite)
      demoReq none ()).file = none ∧
    (ParseStarlark (demoDeps (.ok demoGlobals) (.ok (.tuple [Value.dict []])) demoWrite)
      demoReq none ()).err = some Error.ErrMainReturn ∧
    ¬ ((ParseStarlark (demoDeps (.ok demoGlobals) (.ok (.tuple [Value.dict []])) demoWrite)
          demoReq none ()).err = some Error.ErrMainReturn ↔
        ((Value.tuple [Value.dict []]).isDict = false ∧
          (Value.tuple [Value.dict []]).isOrderedSequence = false)) :=
  ⟨demo_mainReturns _ _ _, rfl, rfl, rfl, by decide⟩

/-- C3, amended: when top-level evaluation and the call to main succeed, every value
returned by main that is neither a dict nor a list (a scalar, a callable, and also a
tuple or any other container) is rejected with ErrMainReturn and no artifact; a list or
a dict is passed on to serialization, whose error, if any, is the error returned; so,
as long as the renderer does not produce ErrMainReturn itself, ParseStarlark fails with
ErrMainReturn if and only if the value is neither a dict nor a list. -/
theorem ParseStarlark_ErrMainReturn_iff {B T : Type} (d : Deps B T) (req : ConvertArgs B)
    (template : Option Template) (td : T) (v : Value)
    (hmain : MainReturns d req template td v) :
    ((v.isDict = false ∧ v.isList = false) →
      (ParseStarlark d req template td).file = none ∧
      (ParseStarlark d req template td).err = some Error.ErrMainReturn) ∧
    (∀ elems, v = .list elems →
      (ParseStarlark d req template td).err = (writeItems d.write elems []).2) ∧
    (∀ items, v = .dict items →
      (ParseStarlark d req template td).err = (d.write (.dict items)).2) ∧
    ((∀ x, (d.write x).2 ≠ some Error.ErrMainReturn) →
      ((ParseStarlark d req template td).err = some Error.ErrMainReturn ↔
        (v.isDict = false ∧ v.isList = false))) := by
  have h := parse_of_mainReturns d req template td v hmain
  have hlist : ∀ elems, v = .list elems →
      (ParseStarlark d req template td).err = (writeItems d.write elems []).2 := by
    intro elems hv
    subst hv
    rcases hw : writeItems d.write elems [] with ⟨buf, _ | e⟩
    · simp only [render, hw, Prod.mk.injEq] at h
      by_cases hb : buf.length > limit <;> simp [hb] at h <;> simp [h.2]
    · simp only [render, hw, Prod.mk.injEq] at h
      simp [h.2]
  have hdict : ∀ items, v = .dict items →
      (ParseStarlark d req template td).err = (d.write (.dict items)).2 := by
    intro items hv
    subst hv
    rcases hw : d.write (.dict items) with ⟨buf, _ | e⟩
    · simp only [render, hw, Prod.mk.injEq] at h
      by_cases hb : buf.length > limit <;> simp [hb] at h <;> simp [h.2]
    · simp only [render, hw, Prod.mk.injEq] at h
      simp [h.2]
  have hother : (v.isDict = false ∧ v.isList = false) →
      (ParseStarlark d req template td).file = none ∧
      (ParseStarlark d req template td).err = some Error.ErrMainReturn := by
    intro hv
    cases v <;> simp [Value.isDict, Value.isList] at hv <;>
      simpa [render, eq_comm] using h
  refine ⟨hother, hlist, hdict, fun hwrite => ⟨?_, fun hv => (hother hv).2⟩⟩
  intro herr
  cases v with
  | list elems =>
    rw [hlist elems rfl] at herr
    obtain ⟨x, hx⟩ := writeItems_error_source d.write elems [] _ herr
    exact absurd hx (hwrite x)
  | dict items => rw [hdict items rfl] at herr; exact absurd herr (hwrite _)
  | _ => simp [Value.isDict, Value.isList]

theorem ParseStarlark_ErrMainReturn_iff_witness :
    MainReturns (demoDeps (.ok demoGlobals) (.ok (.int 42)) demoWrite) demoReq none ()
      (.int 42) ∧
    (∀ x, (demoWrite x).2 ≠ some Error.ErrMainReturn) ∧
    ((Value.int 42).isDict = false ∧ (Value.int 42).isList = false) ∧
    (ParseStarlark (demoDeps (.ok demoGlobals) (.ok (.int 42)) demoWrite) demoReq none ()).err
      = some Error.ErrMainReturn :=
  ⟨demo_mainReturns _ _ _, by intro x; cases x <;> simp [demoWrite], ⟨rfl, rfl⟩,
    ((ParseStarlark_ErrMainReturn_iff (demoDeps (.ok demoGlobals) (.ok (.int 42)) demoWrite)
      demoReq none () (.int 42) (demo_mainReturns _ _ _)).2.2.2
      (by intro x; cases x <;> simp [demoDeps, demoWrite])).2 ⟨rfl, rfl⟩⟩

/-! ## The size limit -/

/-- C4: the result is (nil, nil) exactly when rendering succeeded with a buffer
strictly longer than 1,000,000 bytes; for every successful rendering longer than that
the result is (nil, nil), so ErrMaximumSize is not raised, and for every successful
rendering of at most 1,000,000 bytes the artifact is the buffer, with no error. -/
theorem ParseStarlark_size_limit {B T : Type} (d : Deps B T) (req : ConvertArgs B)
    (template : Option Template) (td : T) :
    (((ParseStarlark d req template td).file = none ∧
        (ParseStarlark d req template td).err = none) ↔
      ∃ v buf, MainReturns d req template td v ∧ render d.write v = .ok buf ∧
        limit < buf.length) ∧
    (∀ v buf, MainReturns d req template td v → render d.write v = .ok buf →
      (limit < buf.length →
        (ParseStarlark d req template td).file = none ∧
        (ParseStarlark d req template td).err = none ∧
        (ParseStarlark d req template td).err ≠ some Error.ErrMaximumSize) ∧
      (buf.length ≤ limit →
        (ParseStarlark d req template td).file = some buf ∧
        (ParseStarlark d req template td).err = none)) := by
  have hfwd : ∀ v buf, MainReturns d req template td v → render d.write v = .ok buf →
      (limit < buf.length →
        (ParseStarlark d req template td).file = none ∧
        (ParseStarlark d req template td).err = none ∧
        (ParseStarlark d req template td).err ≠ some Error.ErrMaximumSize) ∧
      (buf.length ≤ limit →
        (ParseStarlark d req template td).file = some buf ∧
        (ParseStarlark d req template td).err = none) := by
    intro v buf hmain hr
    have h := parse_of_mainReturns d req template td v hmain
    rw [hr] at h
    constructor
    · intro hb
      simp only [gt_iff_lt, hb, if_true, Prod.mk.injEq] at h
      exact ⟨h.1, h.2, by simp [h.2]⟩
    · intro hb
      simp only [gt_iff_lt, Nat.not_lt.mpr hb, if_false, Prod.mk.injEq] at h
      exact h
  refine ⟨⟨?_, ?_⟩, hfwd⟩
  · rintro ⟨hf, he⟩
    have hrun := ParseStarlark_run d req template td
    generalize ParseStarlark d req template td = o at hrun hf he
    cases hrun with
    | tooLarge th1 th2 globals fn v buf hmain hr hb =>
      exact ⟨v, buf, ⟨th1, th2, globals, fn, hmain⟩, hr, hb⟩
    | artifact => simp at hf
    | _ => simp at he
  · rintro ⟨v, buf, hmain, hr, hb⟩
    have := (hfwd v buf hmain hr).1 hb
    exact ⟨this.1, this.2.1⟩

theorem length_fill_gt : limit < (List.replicate 1000001 (0 : UInt8)).length := by
  rw [List.length_replicate]; decide

theorem length_fill_le : (List.replicate 1000000 (0 : UInt8)).length ≤ limit := by
  rw [List.length_replicate]; decide

theorem render_fillWrite (n : Nat) (items : List (Value × Value)) :
    render (fillWrite n) (.dict items) = .ok (List.replicate n 0) := rfl

theorem ParseStarlark_size_limit_witness :
    (MainReturns (demoDeps (.ok demoGlobals) (.ok (.dict [])) (fillWrite 1000001))
        demoReq none () (.dict []) ∧
      render (fillWrite 1000001) (.dict []) = .ok (List.replicate 1000001 0) ∧
      limit < (List.replicate 1000001 (0 : UInt8)).length ∧
      (ParseStarlark (demoDeps (.ok demoGlobals) (.ok (.dict [])) (fillWrite 1000001))
        demoReq none ()).file = none ∧
      (ParseStarlark (demoDeps (.ok demoGlobals) (.ok (.dict [])) (fillWrite 1000001))
        demoReq none ()).err = none) ∧
    (MainReturns (demoDeps (.ok demoGlobals) (.ok (.dict [])) (fillWrite 1000000))
        demoReq none () (.dict []) ∧
      render (fillWrite 1000000) (.dict []) = .ok (List.replicate 1000000 0) ∧
      (List.replicate 1000000 (0 : UInt8)).length ≤ limit ∧
      (ParseStarlark (demoDeps (.ok demoGlobals) (.ok (.dict [])) (fillWrite 1000000))
        demoReq none ()).file = some (List.replicate 1000000 0)) ∧
    (MainReturns (demoDeps (.ok demoGlobals) (.ok (.list [])) demoWrite)
        demoReq none () (.list []) ∧
      render demoWrite (.list []) = .ok [] ∧
      (ParseStarlark (demoDeps (.ok demoGlobals) (.ok (.list [])) demoWrite)
        demoReq none ()).file = some []) :=
  ⟨⟨demo_mainReturns _ _ _, render_fillWrite _ _, length_fill_gt,
      ((((ParseStarlark_size_limit (demoDeps (.ok demoGlobals) (.ok (.dict []))
        (fillWrite 1000001)) demoReq none ()).2 (.dict []) (List.replicate 1000001 0)
        (demo_mainReturns _ _ _) (render_fillWrite _ _)).1 length_fill_gt).1),
      ((((ParseStarlark_size_limit (demoDeps (.ok demoGlobals) (.ok (.dict []))
        (fillWrite 1000001)) demoReq none ()).2 (.dict []) (List.replicate 1000001 0)
        (demo_mainReturns _ _ _) (render_fillWrite _ _)).1 length_fill_gt).2.1)⟩,
    ⟨demo_mainReturns _ _ _, render_fillWrite _ _, length_fill_le,
      ((((ParseStarlark_size_limit (demoDeps (.ok demoGlobals) (.ok (.dict []))
        (fillWrite 1000000)) demoReq none ()).2 (.dict []) (List.replicate 1000000 0)
        (demo_mainReturns _ _ _) (render_fillWrite _ _)).2 length_fill_le).1)⟩,
    ⟨demo_mainReturns _ _ _, rfl,
      ((((ParseStarlark_size_limit (demoDeps (.ok demoGlobals) (.ok (.list []))
        demoWrite) demoReq none ()).2 (.list []) [] (demo_mainReturns _ _ _) rfl).2
        (by decide)).1)⟩⟩

/-! ## Finding the entry point -/

/-- C5: when top-level evaluation succeeds and the globals have no binding named
exactly `main`, the result is no artifact and ErrMainMissing, and the only call made is
the top-level evaluation: the arguments are not built and no function is called. -/
theorem ParseStarlark_main_missing {B T : Type} (d : Deps B T) (req : ConvertArgs B)
    (template : Option Template) (td : T) (th1 : Thread) (globals : StringDict)
    (hexec : d.ExecFile (newThread req) (starlarkFileName req template)
      (starlarkFile req template) = (th1, .ok globals))
    (hget : globals.get "main" = none) :
    (ParseStarlark d req template td).file = none ∧
    (ParseStarlark d req template td).err = some Error.ErrMainMissing ∧
    (ParseStarlark d req template td).trace.any Event.isCreateArgs = false ∧
    (ParseStarlark d req template td).trace.any Event.isCall = false := by
  simp [ParseStarlark, hexec, hget, Event.isCreateArgs, Event.isCall]

theorem ParseStarlark_main_missing_witness :
    (demoDeps (.ok nearMissGlobals) (.ok (.dict [])) demoWrite).ExecFile (newThread demoReq)
        (starlarkFileName demoReq none) (starlarkFile demoReq none)
      = ({ newThread demoReq with steps := 1 }, .ok nearMissGlobals) ∧
    nearMissGlobals.get "main" = none ∧
    (ParseStarlark (demoDeps (.ok nearMissGlobals) (.ok (.dict [])) demoWrite)
      demoReq none ()).err = some Error.ErrMainMissing :=
  ⟨rfl, rfl,
    (ParseStarlark_main_missing (demoDeps (.ok nearMissGlobals) (.ok (.dict [])) demoWrite)
      demoReq none () _ nearMissGlobals rfl rfl).2.1⟩

/-- C6: when top-level evaluation succeeds and `main` is bound to a value that is not
callable, the result is no artifact and ErrMainInvalid, and no function is called;
when `main` is bound to a callable, it is called, and (the interpreter call and the
renderer not producing these two errors themselves) neither ErrMainMissing nor
ErrMainInvalid is returned. -/
theorem ParseStarlark_main_invalid {B T : Type} (d : Deps B T) (req : ConvertArgs B)
    (template : Option Template) (td : T) (th1 : Thread) (globals : StringDict)
    (mainVal : Value)
    (hexec : d.ExecFile (newThread req) (starlarkFileName req template)
      (starlarkFile req template) = (th1, .ok globals))
    (hget : globals.get "main" = some mainVal) :
    (mainVal.isCallable = false →
      (ParseStarlark d req template td).file = none ∧
      (ParseStarlark d req template td).err = some Error.ErrMainInvalid ∧
      (ParseStarlark d req template td).trace.any Event.isCall = false) ∧
    (mainVal.isCallable = true →
      (ParseStarlark d req template td).trace.filter Event.isCall
        = [Event.call (th1.SetMaxExecutionSteps 50000) mainVal
            (d.createArgs req.Repo req.Build td)] ∧
      ((∀ th fn args th2 e, d.Call th fn args = (th2, .error e) →
          e ≠ Error.ErrMainMissing ∧ e ≠ Error.ErrMainInvalid) →
        (∀ x e, (d.write x).2 = some e →
          e ≠ Error.ErrMainMissing ∧ e ≠ Error.ErrMainInvalid) →
        (ParseStarlark d req template td).err ≠ some Error.ErrMainMissing ∧
        (ParseStarlark d req template td).err ≠ some Error.ErrMainInvalid)) := by
  constructor
  · intro hc
    simp [ParseStarlark, hexec, hget, hc, Event.isCall]
  · intro hc
    rcases hC : d.Call (th1.SetMaxExecutionSteps 50000) mainVal
      (d.createArgs req.Repo req.Build td) with ⟨th2, r2⟩
    cases r2 with
    | error e =>
      refine ⟨by simp [ParseStarlark, hexec, hget, hc, hC, Event.isCall], ?_⟩
      intro hcall _
      have := hcall _ _ _ _ _ hC
      simpa [ParseStarlark, hexec, hget, hc, hC] using this
    | ok v =>
      cases hr : render d.write v with
      | error e =>
        refine ⟨by simp [ParseStarlark, hexec, hget, hc, hC, hr, Event.isCall], ?_⟩
        intro _ hwrite
        have he : e ≠ Error.ErrMainMissing ∧ e ≠ Error.ErrMainInvalid := by
          rcases render_error_source d.write v e hr with h | ⟨x, hx⟩
          · subst h; exact ⟨by decide, by decide⟩
          · exact hwrite x e hx
        simpa [ParseStarlark, hexec, hget, hc, hC, hr] using he
      | ok buf =>
        by_cases hb : limit < buf.length <;>
          simp [ParseStarlark, hexec, hget, hc, hC, hr, hb, Event.isCall]

theorem ParseStarlark_main_invalid_witness :
    ((demoDeps (.ok [("main", Value.int 42)]) (.ok (.dict [])) demoWrite).ExecFile
          (newThread demoReq) (starlarkFileName demoReq none) (starlarkFile demoReq none)
        = ({ newThread demoReq with steps := 1 }, .ok [("main", Value.int 42)]) ∧
      StringDict.get [("main", Value.int 42)] "main" = some (Value.int 42) ∧
      (Value.int 42).isCallable = false ∧
      (ParseStarlark (demoDeps (.ok [("main", Value.int 42)]) (.ok (.dict [])) demoWrite)
        demoReq none ()).err = some Error.ErrMainInvalid) ∧
    ((demoDeps (.ok demoGlobals) (.error (.other "boom")) demoWrite).ExecFile
          (newThread demoReq) (starlarkFileName demoReq none) (starlarkFile demoReq none)
        = ({ newThread demoReq with steps := 1 }, .ok demoGlobals) ∧
      demoGlobals.get "main" = some (Value.function "main") ∧
      (Value.function "main").isCallable = true ∧
      (ParseStarlark (demoDeps (.ok demoGlobals) (.error (.other "boom")) demoWrite)
        demoReq none ()).err ≠ some Error.ErrMainMissing ∧
      (ParseStarlark (demoDeps (.ok demoGlobals) (.error (.other "boom")) demoWrite)
        demoReq none ()).err ≠ some Error.ErrMainInvalid) :=
  ⟨⟨rfl, rfl, rfl,
      ((ParseStarlark_main_invalid
        (demoDeps (.ok [("main", Value.int 42)]) (.ok (.dict [])) demoWrite)
        demoReq none () _ [("main", Value.int 42)] (Value.int 42) rfl rfl).1 rfl).2.1⟩,
    ⟨rfl, rfl, rfl,
      ((ParseStarlark_main_invalid
        (demoDeps (.ok demoGlobals) (.error (.other "boom")) demoWrite)
        demoReq none () _ demoGlobals (Value.function "main") rfl rfl).2 rfl).2
        (by
          intro th fn args th2 e h
          simp only [demoDeps, Prod.mk.injEq, Except.error.injEq] at h
          rw [← h.2]
          exact ⟨by decide, by decide⟩)
        (by
          intro x e h
          cases x <;> simp [demoDeps, demoWrite] at h <;> rw [← h] <;>
            exact ⟨by decide, by decide⟩)⟩⟩

/-! ## Choice of the script -/

/-- C7: exactly one script is evaluated per invocation; with a template the interpreter
is given the bytes and the name of the template, whatever the request holds, and
without a template it is given the bytes of `req.Config.Data` and the name
`req.Repo.Config`. -/
theorem ParseStarlark_script_choice {B T : Type} (d : Deps B T) (req : ConvertArgs B)
    (td : T) (t : Template) :
    (ParseStarlark d req (some t) td).trace.filterMap Event.script = [(t.Name, t.Data)] ∧
    (ParseStarlark d req none td).trace.filterMap Event.script
      = [(req.Repo.Config, req.Config.Data)] ∧
    ((ParseStarlark d req (some t) td).trace.filter Event.isExecFile).length = 1 ∧
    ((ParseStarlark d req none td).trace.filter Event.isExecFile).length = 1 := by
  have key : ∀ template : Option Template,
      (ParseStarlark d req template td).trace.filterMap Event.script
        = [(starlarkFileName req template, starlarkFile req template)] ∧
      ((ParseStarlark d req template td).trace.filter Event.isExecFile).length = 1 := by
    intro template
    have hrun := ParseStarlark_run d req template td
    generalize ParseStarlark d req template td = o at hrun
    cases hrun <;> simp [calledTrace, Event.script, Event.isExecFile]
  exact ⟨(key (some t)).1, (key none).1, (key (some t)).2, (key none).2⟩

/-! ## The sandbox: step ceiling and module loading -/

/-- C8, the code at a run that reaches main: top-level evaluation is started on the
thread as built by the struct literal, whose step limit is still the zero value, so the
ceiling of 50,000 is not in force there; it is on the thread only at the call to
main. -/
theorem ParseStarlark_execFile_without_ceiling :
    ((ParseStarlark (demoDeps (.ok demoGlobals) (.ok (.dict [])) demoWrite)
        demoReq none ()).trace.map fun ev => (ev.isExecFile, ev.isCall, ev.maxSteps))
      = [(true, false, some 0), (false, false, none), (false, true, some 50000)] ∧
    ¬ (∀ ev ∈ (ParseStarlark (demoDeps (.ok demoGlobals) (.ok (.dict [])) demoWrite)
          demoReq none ()).trace,
        (ev.isExecFile = true ∨ ev.isCall = true) → ev.maxSteps = some 50000) := by
  refine ⟨rfl, ?_⟩
  intro h
  have := h (Event.execFile (newThread demoReq) (starlarkFileName demoReq none)
    (starlarkFile demoReq none)) (List.mem_cons_self _ _) (Or.inl rfl)
  simp [Event.maxSteps, newThread] at this

/-- Where the step ceiling stands, on every run: whenever ParseStarlark calls main, the
thread it calls on has a maximum of 50,000 execution steps (and it does call main once
top-level evaluation succeeded with `main` bound to a callable); top-level evaluation is
always started on the thread before any ceiling is set, its maximum being the zero
value. -/
theorem ParseStarlark_step_ceiling {B T : Type} (d : Deps B T) (req : ConvertArgs B)
    (template : Option Template) (td : T) :
    ((ParseStarlark d req template td).trace.filter Event.isExecFile).map Event.maxSteps
      = [some 0] ∧
    (((ParseStarlark d req template td).trace.filter Event.isCall).map Event.maxSteps = [] ∨
      ((ParseStarlark d req template td).trace.filter Event.isCall).map Event.maxSteps
        = [some 50000]) ∧
    (∀ th1 globals fn,
      d.ExecFile (newThread req) (starlarkFileName req template) (starlarkFile req template)
        = (th1, .ok globals) →
      globals.get "main" = some fn → fn.isCallable = true →
      ((ParseStarlark d req template td).trace.filter Event.isCall).map Event.maxSteps
        = [some 50000]) := by
  refine ⟨?_, ?_, ?_⟩
  · have hrun := ParseStarlark_run d req template td
    generalize ParseStarlark d req template td = o at hrun
    cases hrun <;>
      simp [calledTrace, Event.isExecFile, Event.maxSteps, newThread]
  · have hrun := ParseStarlark_run d req template td
    generalize ParseStarlark d req template td = o at hrun
    cases hrun <;>
      simp [calledTrace, Event.isCall, Event.maxSteps, Thread.SetMaxExecutionSteps]
  · intro th1 globals fn hexec hget hc
    rw [trace_of_callable d req template td th1 globals fn hexec hget hc]
    simp [calledTrace, Event.isCall, Event.maxSteps, Thread.SetMaxExecutionSteps]

theorem ParseStarlark_step_ceiling_witness :
    (demoDeps (.ok demoGlobals) (.ok (.dict [])) demoWrite).ExecFile
        (newThread demoReq) (starlarkFileName demoReq (some demoTemplate))
        (starlarkFile demoReq (some demoTemplate))
      = ({ newThread demoReq with steps := 1 }, .ok demoGlobals) ∧
    demoGlobals.get "main" = some (Value.function "main") ∧
    (Value.function "main").isCallable = true ∧
    ((ParseStarlark (demoDeps (.ok demoGlobals) (.ok (.dict [])) demoWrite)
        demoReq (some demoTemplate) ()).trace.filter Event.isCall).map Event.maxSteps
      = [some 50000] :=
  ⟨rfl, rfl, rfl,
    (ParseStarlark_step_ceiling (demoDeps (.ok demoGlobals) (.ok (.dict [])) demoWrite)
      demoReq (some demoTemplate) ()).2.2 _ demoGlobals (Value.function "main") rfl rfl rfl⟩

/-- C9: the module-loader hook of the thread that ParseStarlark builds and runs the
script on is noLoad, and noLoad, for every thread and every module name, returns no
bindings together with ErrCannotLoad: no load succeeds. -/
theorem noLoad_always_fails {B T : Type} (d : Deps B T) (req : ConvertArgs B)
    (template : Option Template) (td : T) :
    (newThread req).Load = noLoad ∧
    (ParseStarlark d req template td).trace.head?
      = some (Event.execFile (newThread req) (starlarkFileName req template)
          (starlarkFile req template)) ∧
    (∀ (thread : Thread) (module : String),
      noLoad thread.toThreadState module = (none, some Error.ErrCannotLoad)) ∧
    (∀ (thread : Thread) (module : String),
      (newThread req).Load thread.toThreadState module = (none, some Error.ErrCannotLoad)) ∧
    ¬ ∃ (thread : Thread) (module : String), (noLoad thread.toThreadState module).2 = none := by
  refine ⟨rfl, ?_, fun _ _ => rfl, fun _ _ => rfl, ?_⟩
  · have hrun := ParseStarlark_run d req template td
    generalize ParseStarlark d req template td = o at hrun
    cases hrun <;> simp [calledTrace]
  · rintro ⟨thread, module, h⟩
    simp [noLoad] at h

/-! ## Artifact and error never together -/

/-- C10: ParseStarlark never returns both an artifact and an error: whenever the error
is non-nil the artifact is nil.  An error from top-level evaluation and an error from
the call to main are returned as they are with no artifact; and when main returns a
list whose element k fails to render after elements 0..k-1 rendered, the render error
is returned with no artifact, although the buffer then holds the documents of elements
0..k-1 (and the separator line and what the renderer wrote of element k). -/
theorem ParseStarlark_error_excludes_artifact {B T : Type} (d : Deps B T)
    (req : ConvertArgs B) (template : Option Template) (td : T) :
    ((ParseStarlark d req template td).err ≠ none →
      (ParseStarlark d req template td).file = none) ∧
    (∀ th1 e,
      d.ExecFile (newThread req) (starlarkFileName req template) (starlarkFile req template)
        = (th1, .error e) →
      (ParseStarlark d req template td).file = none ∧
      (ParseStarlark d req template td).err = some e) ∧
    (∀ th1 th2 globals fn e,
      d.ExecFile (newThread req) (starlarkFileName req template) (starlarkFile req template)
        = (th1, .ok globals) →
      globals.get "main" = some fn → fn.isCallable = true →
      d.Call (th1.SetMaxExecutionSteps 50000) fn (d.createArgs req.Repo req.Build td)
        = (th2, .error e) →
      (ParseStarlark d req template td).file = none ∧
      (ParseStarlark d req template td).err = some e) ∧
    (∀ (done rest : List Value) (item : Value) (out : Bytes) (e : Error),
      MainReturns d req template td (.list (done ++ item :: rest)) →
      (∀ x ∈ done, (d.write x).2 = none) →
      d.write item = (out, some e) →
      (ParseStarlark d req template td).file = none ∧
      (ParseStarlark d req template td).err = some e ∧
      writeItems d.write (done ++ item :: rest) []
        = (documents d.write done ++ bytesOf separator ++ bytesOf newline ++ out, some e)) := by
  refine ⟨?_, ?_, ?_, ?_⟩
  · intro he
    have hrun := ParseStarlark_run d req template td
    generalize ParseStarlark d req template td = o at hrun he
    cases hrun <;> simp at he ⊢
  · intro th1 e hexec
    simp [ParseStarlark, hexec]
  · intro th1 th2 globals fn e hexec hget hc hC
    simp [ParseStarlark, hexec, hget, hc, hC]
  · intro done rest item out e hmain hdone hitem
    have hw := writeItems_error d.write done rest item out e hdone hitem []
    have h := parse_of_mainReturns d req template td _ hmain
    have hr : render d.write (.list (done ++ item :: rest)) = .error e := by
      simp [render, hw]
    rw [hr] at h
    simp only [Prod.mk.injEq] at h
    refine ⟨h.1, h.2, ?_⟩
    simpa using hw

theorem ParseStarlark_error_excludes_artifact_witness :
    MainReturns (demoDeps (.ok demoGlobals)
        (.ok (.list ([Value.string "a"] ++ Value.int 1 :: [Value.string "b"]))) demoWrite)
      demoReq none () (.list ([Value.string "a"] ++ Value.int 1 :: [Value.string "b"])) ∧
    (∀ x ∈ [Value.string "a"], (demoWrite x).2 = none) ∧
    demoWrite (Value.int 1) = (bytesOf "!", some (Error.other "cannot render")) ∧
    (ParseStarlark (demoDeps (.ok demoGlobals)
        (.ok (.list ([Value.string "a"] ++ Value.int 1 :: [Value.string "b"]))) demoWrite)
      demoReq none ()).file = none ∧
    (ParseStarlark (demoDeps (.ok demoGlobals)
        (.ok (.list ([Value.string "a"] ++ Value.int 1 :: [Value.string "b"]))) demoWrite)
      demoReq none ()).err = some (Error.other "cannot render") ∧
    writeItems demoWrite ([Value.string "a"] ++ Value.int 1 :: [Value.string "b"]) []
      = (bytesOf "---\na\n---\n!", some (Error.other "cannot render")) :=
  ⟨demo_mainReturns _ _ _, by simp [demoWrite], rfl,
    (by decide : documents demoWrite [Value.string "a"] ++ bytesOf separator
        ++ bytesOf newline ++ bytesOf "!" = bytesOf "---\na\n---\n!") ▸
      (ParseStarlark_error_excludes_artifact (demoDeps (.ok demoGlobals)
          (.ok (.list ([Value.string "a"] ++ Value.int 1 :: [Value.string "b"]))) demoWrite)
        demoReq none ()).2.2.2 [Value.string "a"] [Value.string "b"] (Value.int 1)
        (bytesOf "!") (Error.other "cannot render") (demo_mainReturns _ _ _)
        (by simp [demoDeps, demoWrite]) rfl⟩

end Parser
